import Mathlib

/-!
Shallow embedding of the `ultrafast` core module (`ultrafast/core.py`).

Conventions of the embedding:

* Python floats are modelled by exact real arithmetic (`ℝ`); parsed numeric
  literals are modelled by exact decimal pairs `(mantissa, exponent)` whose
  real value is taken where the code computes.
* Python exceptions are modelled by `Except UltrafastError`; each exception
  class of the module is a constructor of `UltrafastError` carrying the same
  payload as the Python class.
* The `Material` class is modelled as a structure; its property setters and
  the mutable attribute state are modelled by explicit state passing: a setter
  returns the updated `Material` (or the raised error).  The dispersion
  function wrapper installed by the `n` setter re-reads the range at call
  time, which the embedding captures by having `Material.n` consult the
  `range_` field of the state it is invoked on.
* String handling (`str.startswith`, `str.split()`, `float(..)`, `int(..)`)
  is embedded by executable functions over `List Char`.
-/

namespace Ultrafast

/-- Exception taxonomy of `ultrafast.core`: `UltrafastError` is the base
class (carrying just a message when raised directly), `RangeError` carries
the offending value, the valid `(low, high)` bound and a message, and
`PropertySetError` carries the property name and a message.  The extra
`valueError`, `zeroDivisionError` and `typeError` constructors model the
Python builtin exceptions that `float(..)` / `int(..)` / `math.sqrt` /
`math.pow`, float division by zero, and `len(None)` would raise. -/
inductive UltrafastError where
  | rangeError (value : ℝ) (valid : List ℝ) (message : String)
  | propertySetError (property_ : String) (message : String)
  | ultrafastError (message : String)
  | valueError (message : String)
  | zeroDivisionError (message : String)
  | typeError (message : String)

/-- Python `s.startswith(pre)`. -/
def pyStartsWith (s pre : String) : Bool :=
  pre.data.isPrefixOf s.data

/-- Helper for `pySplit`: splits a character list on whitespace runs,
dropping empty fields (the behaviour of Python `str.split()` with no
argument).  `acc` holds the current field, reversed. -/
def splitWhitespaceAux : List Char → List Char → List String
  | [], acc => if acc.isEmpty then [] else [String.mk acc.reverse]
  | ch :: rest, acc =>
    if ch.isWhitespace then
      if acc.isEmpty then splitWhitespaceAux rest []
      else String.mk acc.reverse :: splitWhitespaceAux rest []
    else splitWhitespaceAux rest (ch :: acc)

/-- Python `s.split()` (split on whitespace runs, no empty fields). -/
def pySplit (s : String) : List String :=
  splitWhitespaceAux s.data []

/-- Value of a nonempty all-digit character list, `none` otherwise. -/
def digitsVal (cs : List Char) : Option ℕ :=
  if cs.isEmpty || !(cs.all Char.isDigit) then none
  else some (cs.foldl (fun a ch => 10 * a + (ch.toNat - 48)) 0)

/-- Python `int(s)` on decimal integer literals (optional leading minus). -/
def pyInt (s : String) : Option ℤ :=
  match s.data with
  | '-' :: rest => (digitsVal rest).map (fun k => -(k : ℤ))
  | cs => (digitsVal cs).map (fun k => (k : ℤ))

/-- Magnitude part of a decimal float literal: digits with an optional
fractional part.  The exact value of the literal is represented as a pair
`(mantissa, exponent)` denoting `mantissa / 10 ^ exponent` (kept in integer
form so that parsing is kernel-computable; the real value is taken by
`decVal` where the code computes). -/
def pyFloatMag (cs : List Char) : Option (ℤ × ℕ) :=
  match cs.splitOn '.' with
  | [ip] => (digitsVal ip).map (fun k => ((k : ℤ), 0))
  | [ip, fp] =>
    match digitsVal ip, digitsVal fp with
    | some a, some b => some (((a * 10 ^ fp.length + b : ℕ) : ℤ), fp.length)
    | _, _ => none
  | _ => none

/-- Python `float(s)` on plain decimal literals (optional leading minus),
modelled as the exact decimal value of the literal. -/
def pyFloat (s : String) : Option (ℤ × ℕ) :=
  match s.data with
  | '-' :: rest => (pyFloatMag rest).map (fun p => (-p.1, p.2))
  | cs => pyFloatMag cs

/-- Real value of a parsed decimal literal `(mantissa, exponent)`. -/
noncomputable def decVal (p : ℤ × ℕ) : ℝ := (p.1 : ℝ) / 10 ^ p.2

/-- Speed of light in micrometres per femtosecond:
`c = speed_of_light * (1e-9)` with `speed_of_light = 299792458` (m/s). -/
noncomputable def c : ℝ := 299792458 / 10 ^ 9

/-- General wavelength/angular-frequency converter `c * 2 * pi / value`
(the module-level `_converter`). -/
noncomputable def converter (value : ℝ) : ℝ := c * 2 * Real.pi / value

/-- Wavelength (µm) to angular frequency (rad/fs): `frequency`. -/
noncomputable def frequency (lambda_ : ℝ) : ℝ := converter lambda_

/-- Angular frequency (rad/fs) to wavelength (µm): `wavelength`. -/
noncomputable def wavelength (omega : ℝ) : ℝ := converter omega

/-- State of a `Material` instance: the raw (unwrapped) dispersion function
set through the `n` setter, the stored frequency range (the Python tuple,
modelled as a list so that ill-sized inputs are expressible), and the
metadata attributes. -/
structure Material where
  rawN : ℝ → ℝ
  range_ : List ℝ
  name : Option String
  references : Option String
  comments : Option String

/-- `Material._assert_frequency`: raises `RangeError(omega, self.range_, ..)`
unless `range_[0] <= omega <= range_[1]`. -/
noncomputable def Material.assertFrequency (m : Material) (omega : ℝ) :
    Except UltrafastError Unit :=
  if ¬ (m.range_.getD 0 0 ≤ omega ∧ omega ≤ m.range_.getD 1 0) then
    .error (.rangeError omega m.range_ "Angular frequency out of material range")
  else .ok ()

/-- Body of the `range_` property setter: asserts length 2, then reverses a
descending pair (`value[::-1]`), and returns the value to store. -/
noncomputable def setRange (value : List ℝ) : Except UltrafastError (List ℝ) :=
  if value.length ≠ 2 then
    .error (.propertySetError "range_" "Frequency range is not a 2-tuple")
  else if value.getD 0 0 > value.getD 1 0 then
    .ok value.reverse
  else
    .ok value

/-- Callable check of the `n` property setter.  A Python object that is not
callable (e.g. `None`) is modelled by `none`; a callable by `some f`.  The
check is generic in the callable's type: the base development models
dispersion callables that always return a float, while the record-backed
constructor passes formula closures that can raise. -/
def checkCallable {A : Type} (value : Option A) : Except UltrafastError A :=
  match value with
  | none => .error (.propertySetError "n" "Refractive index function is not callable")
  | some f => .ok f

/-- The `n` property setter applied to an existing instance. -/
def Material.setN (m : Material) (value : Option (ℝ → ℝ)) :
    Except UltrafastError Material :=
  match checkCallable value with
  | .error e => .error e
  | .ok f => .ok { m with rawN := f }

/-- The `range_` property setter applied to an existing instance. -/
noncomputable def Material.setRange_ (m : Material) (value : List ℝ) :
    Except UltrafastError Material :=
  match setRange value with
  | .error e => .error e
  | .ok r => .ok { m with range_ := r }

/-- The wrapped dispersion function installed by the `n` setter: asserts the
frequency against the range that is current at call time, then evaluates the
raw function. -/
noncomputable def Material.n (m : Material) (omega : ℝ) :
    Except UltrafastError ℝ :=
  match m.assertFrequency omega with
  | .error e => .error e
  | .ok _ => .ok (m.rawN omega)

/-- `Material.__init__(n, range_, name, references, comments)`: `self.n = n`
runs first (callable check), then `self.range_ = range_` (length check and
normalization), then the metadata assignments. -/
noncomputable def materialInit (n : Option (ℝ → ℝ)) (range_ : Option (List ℝ))
    (name references comments : Option String) :
    Except UltrafastError Material :=
  match checkCallable n with
  | .error e => .error e
  | .ok f =>
    match range_ with
    | none => .error (.typeError "object of type NoneType has no len()")
    | some xs =>
      match setRange xs with
      | .error e => .error e
      | .ok r =>
        .ok { rawN := f, range_ := r, name := name,
              references := references, comments := comments }

/-- `Material.wavevector(omega)`: asserts the frequency, then returns
`omega * self.n(omega) / c` (so the range check runs twice). -/
noncomputable def Material.wavevector (m : Material) (omega : ℝ) :
    Except UltrafastError ℝ :=
  match m.assertFrequency omega with
  | .error e => .error e
  | .ok _ =>
    match m.n omega with
    | .error e => .error e
    | .ok a => .ok (omega * a / c)

/-- Modelled from the spec: the process-wide reference Air material.  The
source builds it as `RIIDMaterial(<fixed remote Ciddor record URL>)`; the
record's contents live outside the repository (fetched over HTTP), so the
resulting material is modelled as a fixed material of the shape the spec
gives (a dispersion function valid on a stored low-first range).  No claim
depends on its numeric content, only on its identity as the default
incident material of `brewster`. -/
noncomputable def air : Material :=
  { rawN := fun _ => 1.000268
    range_ := [frequency 1.69, frequency 0.23]
    name := some "http://refractiveindex.info/database/other/mixed%20gases/air/Ciddor.yml"
    references := some "Ciddor 1996"
    comments := some "air" }

/-- `Material.brewster(omega, inc_mat=None)`: asserts the frequency against
the material's own range, defaults `inc_mat` to the module-level `air`, then
returns `atan(self.n(omega) / inc_mat.n(omega))`.  Both wrapped dispersion
calls perform their own range checks. -/
noncomputable def Material.brewster (m : Material) (omega : ℝ)
    (inc_mat : Option Material) : Except UltrafastError ℝ :=
  match m.assertFrequency omega with
  | .error e => .error e
  | .ok _ =>
    match m.n omega with
    | .error e => .error e
    | .ok a =>
      match (inc_mat.getD air).n omega with
      | .error e => .error e
      | .ok b => .ok (Real.arctan (a / b))

/-- One entry of the `DATA` list of a RefractiveIndex.info record, with the
fields `RIIDMaterial.__init__` reads: the `type` tag, the `range` string and
the `coefficients` string.  The code only reads `range`/`coefficients` inside
the formula branch, so for non-formula entries these fields are never
consulted. -/
structure Datum where
  type_ : String
  range_ : String
  coefficients : String

/-- A decoded RefractiveIndex.info record: the optional `DATA` list and the
optional `REFERENCES` / `COMMENTS` strings (absent keys are `none`). -/
structure Entry where
  data : Option (List Datum)
  references : Option String
  comments : Option String

/-- `float(s)` as an exception-raising operation (ValueError on failure). -/
def floatE (s : String) : Except UltrafastError (ℤ × ℕ) :=
  match pyFloat s with
  | some q => .ok q
  | none => .error (.valueError "could not convert string to float")

/-- `[float(x) for x in xs]` with ValueError propagation. -/
def floatListE (xs : List String) : Except UltrafastError (List (ℤ × ℕ)) :=
  xs.mapM floatE

/-- `int(s)` as an exception-raising operation (ValueError on failure). -/
def intE (s : String) : Except UltrafastError ℤ :=
  match pyInt s with
  | some i => .ok i
  | none => .error (.valueError "invalid literal for int with base 10")

/-- Range parse of the formula branch:
`[frequency(float(x)) for x in reversed(datum["range"].split())]`. -/
noncomputable def parseRange (s : String) : Except UltrafastError (List ℝ) :=
  match floatListE (pySplit s).reverse with
  | .error e => .error e
  | .ok qs => .ok (qs.map (fun q => frequency (decVal q)))

/-- Coefficient `i` of a parsed coefficient list, as a real number (Python
`coefficients[i]`; an out-of-bounds access, which would raise IndexError and
which no claim exercises, is modelled as 0). -/
noncomputable def co (cs : List (ℤ × ℕ)) (i : ℕ) : ℝ := decVal (cs.getD i (0, 0))

/-- The pair slices `[coefficients[i:i+2] for i in range(k, len(coefficients), 2)]`
used by formulas 1, 2, 3, 4, 5 and 6. -/
def pairSlices (k : ℕ) (cs : List (ℤ × ℕ)) : List (List (ℤ × ℕ)) :=
  ((List.range' k (cs.length - k)).filter (fun i => (i - k) % 2 == 0)).map
    (fun i => (cs.drop i).take 2)

/-- Python float division `a / b`: raises `ZeroDivisionError` on a zero
divisor, otherwise the exact quotient. -/
noncomputable def pyDiv (a b : ℝ) : Except UltrafastError ℝ :=
  if b = 0 then .error (.zeroDivisionError "float division by zero")
  else .ok (a / b)

/-- Python `math.sqrt`: raises `ValueError` on a negative argument,
otherwise the real square root. -/
noncomputable def mathSqrt (x : ℝ) : Except UltrafastError ℝ :=
  if x < 0 then .error (.valueError "math domain error")
  else .ok (Real.sqrt x)

open Classical in
/-- Python `math.pow`: raises `ValueError` when the base is zero and the
exponent negative, or when the base is negative and the exponent not an
integer; otherwise the real power (for a negative base with integer
exponent, `Real.rpow` agrees with the integer power). -/
noncomputable def mathPow (x y : ℝ) : Except UltrafastError ℝ :=
  if x = 0 ∧ y < 0 then .error (.valueError "math domain error")
  else if x < 0 ∧ ¬ ∃ k : ℤ, y = (k : ℝ) then .error (.valueError "math domain error")
  else .ok (x ^ y)

/-- Formula 1 - Sellmeier (preferred): accumulates `n2 = 1 + c0` then
`n2 += (x0 * lambda^2) / (lambda^2 - x1^2)` over pair slices from index 1
(the division can raise `ZeroDivisionError`), returning `sqrt(n2)` (which
can raise `ValueError` on a negative radicand).  `pow(e, 2)` never raises
and is embedded as squaring. -/
noncomputable def formula1 (coefficients : List (ℤ × ℕ)) (lambda_ : ℝ) :
    Except UltrafastError ℝ :=
  match (pairSlices 1 coefficients).foldlM
      (fun n2 x =>
        match pyDiv (co x 0 * lambda_ ^ 2) (lambda_ ^ 2 - co x 1 ^ 2) with
        | .error e => Except.error e
        | .ok t => Except.ok (n2 + t))
      (1 + co coefficients 0) with
  | .error e => Except.error e
  | .ok n2 => mathSqrt n2

/-- Formula 2 - Sellmeier-2: like formula 1 but the denominator subtracts
`x1` directly (not squared). -/
noncomputable def formula2 (coefficients : List (ℤ × ℕ)) (lambda_ : ℝ) :
    Except UltrafastError ℝ :=
  match (pairSlices 1 coefficients).foldlM
      (fun n2 x =>
        match pyDiv (co x 0 * lambda_ ^ 2) (lambda_ ^ 2 - co x 1) with
        | .error e => Except.error e
        | .ok t => Except.ok (n2 + t))
      (1 + co coefficients 0) with
  | .error e => Except.error e
  | .ok n2 => mathSqrt n2

/-- Formula 3 - Polynomial: `n2 = c0` then `n2 += x0 * pow(lambda, x1)`
over pair slices (`math.pow` with a coefficient exponent can raise),
returning `sqrt(n2)`. -/
noncomputable def formula3 (coefficients : List (ℤ × ℕ)) (lambda_ : ℝ) :
    Except UltrafastError ℝ :=
  match (pairSlices 1 coefficients).foldlM
      (fun n2 x =>
        match mathPow lambda_ (co x 1) with
        | .error e => Except.error e
        | .ok p => Except.ok (n2 + co x 0 * p))
      (co coefficients 0) with
  | .error e => Except.error e
  | .ok n2 => mathSqrt n2

/-- Formula 4 - RefractiveIndex.info: two four-wide slices at fixed offsets
1 and 5 contribute `(x0 * pow(lambda, x1)) / (lambda^2 - pow(x2, x3))`, then
pair slices from index 9 contribute `x0 * pow(lambda, x1)`; returns
`sqrt(n2)`. -/
noncomputable def formula4 (coefficients : List (ℤ × ℕ)) (lambda_ : ℝ) :
    Except UltrafastError ℝ :=
  match ([(coefficients.drop 1).take 4, (coefficients.drop 5).take 4]).foldlM
      (fun n2 x =>
        match mathPow lambda_ (co x 1) with
        | .error e => Except.error e
        | .ok p1 =>
          match mathPow (co x 2) (co x 3) with
          | .error e => Except.error e
          | .ok p2 =>
            match pyDiv (co x 0 * p1) (lambda_ ^ 2 - p2) with
            | .error e => Except.error e
            | .ok t => Except.ok (n2 + t))
      (co coefficients 0) with
  | .error e => Except.error e
  | .ok n2a =>
    match (pairSlices 9 coefficients).foldlM
        (fun n2 x =>
          match mathPow lambda_ (co x 1) with
          | .error e => Except.error e
          | .ok p => Except.ok (n2 + co x 0 * p))
        n2a with
    | .error e => Except.error e
    | .ok n2 => mathSqrt n2

/-- Formula 5 - Cauchy: `n = c0` then `n += x0 * pow(lambda, x1)` over pair
slices; no square root. -/
noncomputable def formula5 (coefficients : List (ℤ × ℕ)) (lambda_ : ℝ) :
    Except UltrafastError ℝ :=
  (pairSlices 1 coefficients).foldlM
    (fun acc x =>
      match mathPow lambda_ (co x 1) with
      | .error e => Except.error e
      | .ok p => Except.ok (acc + co x 0 * p))
    (co coefficients 0)

/-- Formula 6 - Gases: `n = 1 + c0` then `n += x0 / (x1 - pow(lambda, -2))`
over pair slices (`pow(lambda, -2)` raises at `lambda = 0`, the division at
a zero denominator); no square root. -/
noncomputable def formula6 (coefficients : List (ℤ × ℕ)) (lambda_ : ℝ) :
    Except UltrafastError ℝ :=
  (pairSlices 1 coefficients).foldlM
    (fun acc x =>
      match mathPow lambda_ (-2) with
      | .error e => Except.error e
      | .ok p =>
        match pyDiv (co x 0) (co x 1 - p) with
        | .error e => Except.error e
        | .ok t => Except.ok (acc + t))
    (1 + co coefficients 0)

/-- Formula 7 - Herzberger:
`n = c0 + c1/(lambda^2 - 0.028) + c2*pow(lambda^2 - 0.028, -2)` then
`n += x * pow(lambda, 2*i)` for `i, x in enumerate(coefficients[3:], 1)`
(`pow` with the positive even integer exponent `2*i` never raises and is
embedded as a power). -/
noncomputable def formula7 (coefficients : List (ℤ × ℕ)) (lambda_ : ℝ) :
    Except UltrafastError ℝ :=
  match pyDiv (co coefficients 1) (lambda_ ^ 2 - 0.028) with
  | .error e => Except.error e
  | .ok t1 =>
    match mathPow (lambda_ ^ 2 - 0.028) (-2) with
    | .error e => Except.error e
    | .ok p =>
      .ok ((List.enumFrom 1 (coefficients.drop 3)).foldl
        (fun acc q => acc + decVal q.2 * lambda_ ^ (2 * q.1))
        (co coefficients 0 + t1 + co coefficients 2 * p))

/-- Formula 8 - Retro: `alpha = c0 + (c1*lambda^2)/(lambda^2 - c2) +
c3*lambda^2`, `n2 = -((2*alpha + 1)/(alpha - 1))` (either division can
raise `ZeroDivisionError`), returns `sqrt(n2)`. -/
noncomputable def formula8 (coefficients : List (ℤ × ℕ)) (lambda_ : ℝ) :
    Except UltrafastError ℝ :=
  match pyDiv (co coefficients 1 * lambda_ ^ 2) (lambda_ ^ 2 - co coefficients 2) with
  | .error e => Except.error e
  | .ok t =>
    match pyDiv
        (2 * (co coefficients 0 + t + co coefficients 3 * lambda_ ^ 2) + 1)
        ((co coefficients 0 + t + co coefficients 3 * lambda_ ^ 2) - 1) with
    | .error e => Except.error e
    | .ok q => mathSqrt (-q)

/-- Formula 9 - Exotic:
`n2 = c0 + c1/(lambda^2 - c2) + c3*(lambda - c4)/((lambda - c4)^2 + c5)`
(the two divisions evaluate in that order), returns `sqrt(n2)`. -/
noncomputable def formula9 (coefficients : List (ℤ × ℕ)) (lambda_ : ℝ) :
    Except UltrafastError ℝ :=
  match pyDiv (co coefficients 1) (lambda_ ^ 2 - co coefficients 2) with
  | .error e => Except.error e
  | .ok t1 =>
    match pyDiv (co coefficients 3 * (lambda_ - co coefficients 4))
        ((lambda_ - co coefficients 4) ^ 2 + co coefficients 5) with
    | .error e => Except.error e
    | .ok t2 => mathSqrt (co coefficients 0 + t1 + t2)

/-- The formula dispatch chain of `RIIDMaterial.__init__`: formulas 1-9 map
to their wavelength-domain dispersion functions (each a closure that can
raise when evaluated); any other index raises `RangeError(formula, (1, 9), ..)`. -/
noncomputable def dispersionFormula (formula : ℤ) (coefficients : List (ℤ × ℕ)) :
    Except UltrafastError (ℝ → Except UltrafastError ℝ) :=
  if formula = 1 then .ok (formula1 coefficients)
  else if formula = 2 then .ok (formula2 coefficients)
  else if formula = 3 then .ok (formula3 coefficients)
  else if formula = 4 then .ok (formula4 coefficients)
  else if formula = 5 then .ok (formula5 coefficients)
  else if formula = 6 then .ok (formula6 coefficients)
  else if formula = 7 then .ok (formula7 coefficients)
  else if formula = 8 then .ok (formula8 coefficients)
  else if formula = 9 then .ok (formula9 coefficients)
  else .error (.rangeError (formula : ℝ) [1, 9] "RIID dispersion formula out of range")

/-- The `for datum in entry[DATA]` scan of `RIIDMaterial.__init__`.  A
`formula`-tagged entry parses the range (reversed, converted to angular
frequency), the coefficients and the formula index, dispatches, wraps the
wavelength-domain function with the frequency converter, and stops the scan
(`break`).  A `tabulated n`-tagged entry prints a note and also stops the
scan with no dispersion function recorded (`break`).  Any other tag falls
through to the next entry.  Returns `none` when the scan ends without a
dispersion function (both `n` and `range_` still `None`). -/
noncomputable def scanData :
    List Datum → Except UltrafastError (Option ((ℝ → Except UltrafastError ℝ) × List ℝ))
  | [] => .ok none
  | datum :: rest =>
    if pyStartsWith datum.type_ "formula" then
      match parseRange datum.range_ with
      | .error e => .error e
      | .ok range_ =>
        match floatListE (pySplit datum.coefficients) with
        | .error e => .error e
        | .ok coefficients =>
          match intE ((pySplit datum.type_).getD 1 "") with
          | .error e => .error e
          | .ok formula =>
            match dispersionFormula formula coefficients with
            | .error e => .error e
            | .ok fl => .ok (some (fun omega => fl (wavelength omega), range_))
    else if pyStartsWith datum.type_ "tabulated n" then
      .ok none
    else
      scanData rest

/-- State of an `RIIDMaterial` instance.  It is a `Material` whose
dispersion callable is one of the formula closures, which can raise
(`ZeroDivisionError` / `ValueError`) when evaluated; such a callable is
modelled with an `Except`-valued function, while the base development's
`Material` models callables that always return a float. -/
structure RIIDMaterial where
  rawN : ℝ → Except UltrafastError ℝ
  range_ : List ℝ
  name : Option String
  references : Option String
  comments : Option String

/-- `Material._assert_frequency` on an `RIIDMaterial` (same body). -/
noncomputable def RIIDMaterial.assertFrequency (m : RIIDMaterial) (omega : ℝ) :
    Except UltrafastError Unit :=
  if ¬ (m.range_.getD 0 0 ≤ omega ∧ omega ≤ m.range_.getD 1 0) then
    .error (.rangeError omega m.range_ "Angular frequency out of material range")
  else .ok ()

/-- The wrapped dispersion function of an `RIIDMaterial`: asserts the
frequency against the current range, then evaluates the raw closure, whose
own exceptions propagate. -/
noncomputable def RIIDMaterial.n (m : RIIDMaterial) (omega : ℝ) :
    Except UltrafastError ℝ :=
  match m.assertFrequency omega with
  | .error e => .error e
  | .ok _ => m.rawN omega

/-- `Material.__init__` at the type of raising dispersion callables (the
logic of `materialInit`, invoked by `RIIDMaterial.__init__` with the formula
closure): callable check first, then range length check and
normalization. -/
noncomputable def materialInitR (n : Option (ℝ → Except UltrafastError ℝ))
    (range_ : Option (List ℝ)) (name references comments : Option String) :
    Except UltrafastError RIIDMaterial :=
  match checkCallable n with
  | .error e => .error e
  | .ok f =>
    match range_ with
    | none => .error (.typeError "object of type NoneType has no len()")
    | some xs =>
      match setRange xs with
      | .error e => .error e
      | .ok r =>
        .ok { rawN := f, range_ := r, name := name,
              references := references, comments := comments }

/-- `RIIDMaterial.__init__(db)` after the record has been fetched and
decoded into `entry` (retrieval and YAML decoding are external
collaborators): scans `entry[DATA]` when present, raises the base
`UltrafastError` when the scan found no dispersion function, extracts the
optional metadata strings, and delegates to `Material.__init__` with
`name = db`.  When the `DATA` key is absent the scan never runs and
`Material.__init__(None, None, ..)` fails its callable check. -/
noncomputable def riidInit (db : String) (entry : Entry) :
    Except UltrafastError RIIDMaterial :=
  match entry.data with
  | some data =>
    match scanData data with
    | .error e => .error e
    | .ok none => .error (.ultrafastError "No dispersion data found in RIID entry")
    | .ok (some fr) =>
      materialInitR (some fr.1) (some fr.2) (some db) entry.references entry.comments
  | none =>
    materialInitR none none (some db) entry.references entry.comments

/-! Helper lemmas shared by the claim theorems. -/

lemma two_pi_c_pos : 0 < c * 2 * Real.pi := by
  unfold c
  positivity

lemma assertFrequency_out (m : Material) (lo hi omega : ℝ)
    (hr : m.range_ = [lo, hi]) (h : omega < lo ∨ hi < omega) :
    m.assertFrequency omega =
      .error (.rangeError omega [lo, hi] "Angular frequency out of material range") := by
  have hcond : ¬ (lo ≤ omega ∧ omega ≤ hi) := by
    rcases h with h | h
    · exact fun hc => absurd hc.1 (not_le.2 h)
    · exact fun hc => absurd hc.2 (not_le.2 h)
  unfold Material.assertFrequency
  rw [hr]
  simp only [List.getD_cons_zero, List.getD_cons_succ]
  rw [if_pos hcond]

lemma assertFrequency_in (m : Material) (lo hi omega : ℝ)
    (hr : m.range_ = [lo, hi]) (h1 : lo ≤ omega) (h2 : omega ≤ hi) :
    m.assertFrequency omega = .ok () := by
  unfold Material.assertFrequency
  rw [hr]
  simp only [List.getD_cons_zero, List.getD_cons_succ]
  rw [if_neg (not_not_intro ⟨h1, h2⟩)]

/-- A concrete material used by the witnesses: constant refractive index
`3/2` on the frequency range `[0, 2]`. -/
noncomputable def testMat : Material :=
  { rawN := fun _ => 3 / 2
    range_ := [0, 2]
    name := none
    references := none
    comments := none }

/-- C2: for every Material and every omega outside the closed interval
`[low, high]` of the range active at call time, `n`, `wavevector` and
`brewster` all raise `RangeError` carrying that exact omega and the exact
`(low, high)` pair.  The statement quantifies over arbitrary material states
(hence over any state reached by later range reassignment), and over any
incident-material argument of `brewster`. -/
theorem c2_out_of_range (m : Material) (lo hi omega : ℝ) (inc : Option Material)
    (hr : m.range_ = [lo, hi]) (h : omega < lo ∨ hi < omega) :
    m.n omega =
      .error (.rangeError omega [lo, hi] "Angular frequency out of material range") ∧
    m.wavevector omega =
      .error (.rangeError omega [lo, hi] "Angular frequency out of material range") ∧
    m.brewster omega inc =
      .error (.rangeError omega [lo, hi] "Angular frequency out of material range") := by
  have ha := assertFrequency_out m lo hi omega hr h
  refine ⟨?_, ?_, ?_⟩
  · unfold Material.n
    rw [ha]
  · unfold Material.wavevector
    rw [ha]
  · unfold Material.brewster
    rw [ha]

/-- C2 witness: `testMat` has range `[0, 2]`; at `omega = 3` all three
operations fail with `RangeError(3, [0, 2], ..)`. -/
theorem c2_witness :
    testMat.n 3 =
      .error (.rangeError 3 [0, 2] "Angular frequency out of material range") ∧
    testMat.wavevector 3 =
      .error (.rangeError 3 [0, 2] "Angular frequency out of material range") ∧
    testMat.brewster 3 none =
      .error (.rangeError 3 [0, 2] "Angular frequency out of material range") :=
  c2_out_of_range testMat 0 2 3 none rfl (Or.inr (by norm_num))

/-- C3: the converters are mutually inverse on nonzero input, and both are
the single reciprocal map `x ↦ c * 2 * pi / x`. -/
theorem c3_converter_roundtrip (x : ℝ) (hx : x ≠ 0) :
    wavelength (frequency x) = x ∧ frequency (wavelength x) = x ∧
    frequency x = c * 2 * Real.pi / x ∧ wavelength x = c * 2 * Real.pi / x := by
  have hc : c * 2 * Real.pi ≠ 0 := ne_of_gt two_pi_c_pos
  unfold wavelength frequency converter
  refine ⟨?_, ?_, rfl, rfl⟩
  · field_simp
  · field_simp

/-- C3 witness at `x = 1`. -/
theorem c3_witness :
    wavelength (frequency 1) = 1 ∧ frequency (wavelength 1) = 1 ∧
    frequency 1 = c * 2 * Real.pi / 1 ∧ wavelength 1 = c * 2 * Real.pi / 1 :=
  c3_converter_roundtrip 1 (by norm_num)

/-- C4: a successful range assignment stores the pair low-first: `(lo, hi)`
with `lo > hi` is stored as `(hi, lo)`, the stored range satisfies
`range[0] <= range[1]`, re-assigning the stored range leaves it unchanged
(idempotence), and assigning the reversed pair stores the same range
(order-independence).  `setRange` is the single body of the `range_` setter,
used both at construction and at later reassignment. -/
theorem c4_range_normalization (lo hi : ℝ) :
    setRange [lo, hi] = .ok (if lo > hi then [hi, lo] else [lo, hi]) ∧
    (if lo > hi then [hi, lo] else [lo, hi]).getD 0 0 ≤
      (if lo > hi then [hi, lo] else [lo, hi]).getD 1 0 ∧
    setRange (if lo > hi then [hi, lo] else [lo, hi]) =
      .ok (if lo > hi then [hi, lo] else [lo, hi]) ∧
    setRange [hi, lo] = .ok (if lo > hi then [hi, lo] else [lo, hi]) := by
  rcases lt_or_le hi lo with hlh | hlh
  · rw [if_pos hlh]
    refine ⟨?_, ?_, ?_, ?_⟩
    · unfold setRange
      rw [if_neg (by norm_num), if_pos (by simpa using hlh)]
      rfl
    · simpa using le_of_lt hlh
    · unfold setRange
      rw [if_neg (by norm_num), if_neg (by simpa using not_lt.2 (le_of_lt hlh))]
    · unfold setRange
      rw [if_neg (by norm_num), if_neg (by simpa using not_lt.2 (le_of_lt hlh))]
  · rw [if_neg (not_lt.2 hlh)]
    refine ⟨?_, ?_, ?_, ?_⟩
    · unfold setRange
      rw [if_neg (by norm_num), if_neg (by simpa using not_lt.2 hlh)]
    · simpa using hlh
    · unfold setRange
      rw [if_neg (by norm_num), if_neg (by simpa using not_lt.2 hlh)]
    · unfold setRange
      rcases lt_or_eq_of_le hlh with hlt | heq
      · rw [if_neg (by norm_num), if_pos (by simpa using hlt)]
        rfl
      · rw [if_neg (by norm_num), if_neg (by simp [heq])]
        rw [heq]

/-- C4 witness at the descending pair `(5, 2)`: stored as `[2, 5]`,
low-first, idempotent, and the reversed assignment agrees. -/
theorem c4_witness :
    setRange [(5 : ℝ), 2] = .ok [2, 5] ∧
    ([(2 : ℝ), 5].getD 0 0 ≤ [(2 : ℝ), 5].getD 1 0) ∧
    setRange [(2 : ℝ), 5] = .ok [2, 5] ∧
    setRange [(2 : ℝ), 5] = .ok [2, 5] := by
  have h := c4_range_normalization (5 : ℝ) 2
  rw [if_pos (by norm_num)] at h
  exact h

/-- C7: for every material and every omega inside the active range,
`wavevector(omega)` returns exactly `omega * n(omega) / c`, where the
second conjunct identifies `n(omega)` as the raw dispersion value. -/
theorem c7_wavevector (m : Material) (lo hi omega : ℝ)
    (hr : m.range_ = [lo, hi]) (h1 : lo ≤ omega) (h2 : omega ≤ hi) :
    m.wavevector omega = .ok (omega * m.rawN omega / c) ∧
    m.n omega = .ok (m.rawN omega) := by
  have ha := assertFrequency_in m lo hi omega hr h1 h2
  constructor
  · unfold Material.wavevector Material.n
    rw [ha]
  · unfold Material.n
    rw [ha]

/-- C7 witness: `testMat` at `omega = 1`. -/
theorem c7_witness :
    testMat.wavevector 1 = .ok (1 * testMat.rawN 1 / c) ∧
    testMat.n 1 = .ok (testMat.rawN 1) :=
  c7_wavevector testMat 0 2 1 rfl (by norm_num) (by norm_num)

/-- C9: a range that is not a 2-tuple raises `PropertySetError("range_", ..)`
both at construction and at later reassignment; a non-callable dispersion
function (modelled by `none`) raises `PropertySetError("n", ..)` both at
construction and at later reassignment. -/
theorem c9_property_set_errors (f : ℝ → ℝ) (m : Material) (xs : List ℝ)
    (nm rf cm : Option String) (hx : xs.length ≠ 2) :
    materialInit (some f) (some xs) nm rf cm =
      .error (.propertySetError "range_" "Frequency range is not a 2-tuple") ∧
    m.setRange_ xs =
      .error (.propertySetError "range_" "Frequency range is not a 2-tuple") ∧
    materialInit none (some xs) nm rf cm =
      .error (.propertySetError "n" "Refractive index function is not callable") ∧
    m.setN none =
      .error (.propertySetError "n" "Refractive index function is not callable") := by
  have hsr : setRange xs =
      .error (.propertySetError "range_" "Frequency range is not a 2-tuple") := by
    unfold setRange
    rw [if_pos hx]
  refine ⟨?_, ?_, rfl, rfl⟩
  · simp only [materialInit, checkCallable, hsr]
  · simp only [Material.setRange_, hsr]

/-- C9 witness: the 3-tuple `[0, 1, 2]` as range, `None` as dispersion
function. -/
theorem c9_witness :
    materialInit (some fun x => x) (some [(0 : ℝ), 1, 2]) none none none =
      .error (.propertySetError "range_" "Frequency range is not a 2-tuple") ∧
    testMat.setRange_ [(0 : ℝ), 1, 2] =
      .error (.propertySetError "range_" "Frequency range is not a 2-tuple") ∧
    materialInit none (some [(0 : ℝ), 1, 2]) none none none =
      .error (.propertySetError "n" "Refractive index function is not callable") ∧
    testMat.setN none =
      .error (.propertySetError "n" "Refractive index function is not callable") :=
  c9_property_set_errors (fun x => x) testMat [0, 1, 2] none none none (by simp)

/-- C10: the valid interval is closed at both ends: at `omega = low` and
`omega = high` the range assertion passes and `n`, `wavevector` and
`brewster` evaluate the dispersion function rather than raising.  Since
`brewster` additionally range-checks the incident material, it is exhibited
with an incident material sharing the range (the material itself). -/
theorem c10_closed_endpoints (m : Material) (lo hi : ℝ)
    (hr : m.range_ = [lo, hi]) (hle : lo ≤ hi) :
    m.assertFrequency lo = .ok () ∧ m.assertFrequency hi = .ok () ∧
    m.n lo = .ok (m.rawN lo) ∧ m.n hi = .ok (m.rawN hi) ∧
    m.wavevector lo = .ok (lo * m.rawN lo / c) ∧
    m.wavevector hi = .ok (hi * m.rawN hi / c) ∧
    m.brewster lo (some m) = .ok (Real.arctan (m.rawN lo / m.rawN lo)) ∧
    m.brewster hi (some m) = .ok (Real.arctan (m.rawN hi / m.rawN hi)) := by
  have halo := assertFrequency_in m lo hi lo hr le_rfl hle
  have hahi := assertFrequency_in m lo hi hi hr hle le_rfl
  refine ⟨halo, hahi, ?_, ?_, ?_, ?_, ?_, ?_⟩
  · unfold Material.n
    rw [halo]
  · unfold Material.n
    rw [hahi]
  · unfold Material.wavevector Material.n
    rw [halo]
  · unfold Material.wavevector Material.n
    rw [hahi]
  · unfold Material.brewster Material.n
    simp only [Option.getD_some]
    rw [halo]
  · unfold Material.brewster Material.n
    simp only [Option.getD_some]
    rw [hahi]

/-- C10 witness: `testMat` with range `[0, 2]` accepts both endpoints. -/
theorem c10_witness :
    testMat.assertFrequency 0 = .ok () ∧ testMat.assertFrequency 2 = .ok () ∧
    testMat.n 0 = .ok (testMat.rawN 0) ∧ testMat.n 2 = .ok (testMat.rawN 2) ∧
    testMat.wavevector 0 = .ok (0 * testMat.rawN 0 / c) ∧
    testMat.wavevector 2 = .ok (2 * testMat.rawN 2 / c) ∧
    testMat.brewster 0 (some testMat) = .ok (Real.arctan (testMat.rawN 0 / testMat.rawN 0)) ∧
    testMat.brewster 2 (some testMat) = .ok (Real.arctan (testMat.rawN 2 / testMat.rawN 2)) :=
  c10_closed_endpoints testMat 0 2 rfl (by norm_num)

/-- C8: for in-range omega, `brewster(omega, inc_mat)` returns
`atan(n(omega) / inc_mat.n(omega))` (shown for any incident material whose
own range also admits omega, since the incident dispersion call performs its
own range check); an omitted incident material defaults to the module-level
`air`; and passing the material itself yields exactly `atan(1)` (requiring
the refractive index to be nonzero, as the Python quotient `n/n` would
otherwise raise `ZeroDivisionError` rather than return 1). -/
theorem c8_brewster (m inc : Material) (omega lo hi ilo ihi : ℝ)
    (hr : m.range_ = [lo, hi]) (h1 : lo ≤ omega) (h2 : omega ≤ hi)
    (hri : inc.range_ = [ilo, ihi]) (h3 : ilo ≤ omega) (h4 : omega ≤ ihi)
    (hnz : m.rawN omega ≠ 0) :
    m.brewster omega (some inc) = .ok (Real.arctan (m.rawN omega / inc.rawN omega)) ∧
    m.brewster omega none = m.brewster omega (some air) ∧
    m.brewster omega (some m) = .ok (Real.arctan 1) := by
  have ha := assertFrequency_in m lo hi omega hr h1 h2
  have hai := assertFrequency_in inc ilo ihi omega hri h3 h4
  refine ⟨?_, rfl, ?_⟩
  · unfold Material.brewster Material.n
    simp only [Option.getD_some]
    rw [ha, hai]
  · unfold Material.brewster Material.n
    simp only [Option.getD_some]
    rw [ha]
    show Except.ok (Real.arctan (m.rawN omega / m.rawN omega)) = _
    rw [div_self hnz]

/-- C8 witness: `testMat` against itself at `omega = 1`. -/
theorem c8_witness :
    testMat.brewster 1 (some testMat) =
      .ok (Real.arctan (testMat.rawN 1 / testMat.rawN 1)) ∧
    testMat.brewster 1 none = testMat.brewster 1 (some air) ∧
    testMat.brewster 1 (some testMat) = .ok (Real.arctan 1) :=
  c8_brewster testMat testMat 1 0 2 0 2 rfl (by norm_num) (by norm_num) rfl
    (by norm_num) (by norm_num) (by norm_num [testMat])

/-- A record whose first data entry is tabulated (`"tabulated n"`) and whose
second data entry is a supported Sellmeier formula entry. -/
def c1entry : Entry :=
  { data := some [{ type_ := "tabulated n", range_ := "", coefficients := "" },
                  { type_ := "formula 1", range_ := "10 1", coefficients := "0 1 1.5" }]
    references := none
    comments := none }

/-- The formula entry of `c1entry` on its own. -/
def c1formulaDatum : Datum :=
  { type_ := "formula 1", range_ := "10 1", coefficients := "0 1 1.5" }

/-- C1 counterexample: on a record whose first entry is tagged
`"tabulated n"` and whose second entry is a supported `"formula 1"` entry,
construction does NOT yield a usable dispersion function: the scan stops at
the tabulated entry and construction raises the base `UltrafastError`.  The
second conjunct shows the formula entry alone would have produced a
dispersion function, so the failure is caused by the tabulated entry
stopping the scan rather than continuing it. -/
theorem c1_counterexample :
    riidInit "c1" c1entry =
      .error (.ultrafastError "No dispersion data found in RIID entry") ∧
    (scanData [c1formulaDatum]).map Option.isSome = .ok true :=
  ⟨rfl, rfl⟩

/-- C1 amended: when the scan meets an entry whose tag starts with
`"tabulated n"` (the only tabulated marker the code recognises), it notes it
and STOPS scanning (`break`), so a later formula entry is never reached and
construction fails with the base `UltrafastError`; an entry matching neither
the formula marker nor `"tabulated n"` (e.g. `"tabulated k"`) is skipped
silently and scanning continues with the next entry. -/
theorem c1_tabulated_stops_scan (db : String) (d : Datum) (rest : List Datum)
    (refs coms : Option String)
    (h1 : pyStartsWith d.type_ "formula" = false) :
    (pyStartsWith d.type_ "tabulated n" = true →
      scanData (d :: rest) = .ok none ∧
      riidInit db { data := some (d :: rest), references := refs, comments := coms } =
        .error (.ultrafastError "No dispersion data found in RIID entry")) ∧
    (pyStartsWith d.type_ "tabulated n" = false →
      scanData (d :: rest) = scanData rest) := by
  constructor
  · intro h2
    have hs : scanData (d :: rest) = .ok none := by
      conv_lhs => rw [scanData]
      rw [h1, h2]
      simp
    refine ⟨hs, ?_⟩
    simp only [riidInit, hs]
  · intro h2
    conv_lhs => rw [scanData]
    rw [h1, h2]
    simp

/-- C1 amended witness: a `"tabulated n"` entry followed by a good formula
entry ends the scan with no dispersion function and fails construction; a
`"tabulated k"` entry is skipped and the scan continues. -/
theorem c1_witness :
    (scanData ({ type_ := "tabulated n", range_ := "", coefficients := "" } :: [c1formulaDatum]) = .ok none ∧
      riidInit "c1"
        { data := some ({ type_ := "tabulated n", range_ := "", coefficients := "" } :: [c1formulaDatum]),
          references := none, comments := none } =
        .error (.ultrafastError "No dispersion data found in RIID entry")) ∧
    scanData ({ type_ := "tabulated k", range_ := "", coefficients := "" } :: [c1formulaDatum]) =
      scanData [c1formulaDatum] := by
  have h := c1_tabulated_stops_scan "c1"
    { type_ := "tabulated n", range_ := "", coefficients := "" } [c1formulaDatum]
    none none (by decide)
  have h' := c1_tabulated_stops_scan "c1"
    { type_ := "tabulated k", range_ := "", coefficients := "" } [c1formulaDatum]
    none none (by decide)
  exact ⟨h.1 (by decide), h'.2 (by decide)⟩

lemma scanData_skip (pre l : List Datum)
    (hpre : ∀ p ∈ pre, pyStartsWith p.type_ "formula" = false ∧
      pyStartsWith p.type_ "tabulated n" = false) :
    scanData (pre ++ l) = scanData l := by
  induction pre with
  | nil => rfl
  | cons p ps ih =>
    have hp := hpre p (List.mem_cons_self p ps)
    rw [List.cons_append]
    conv_lhs => rw [scanData]
    rw [if_neg (by simp [hp.1]), if_neg (by simp [hp.2])]
    exact ih (fun q hq => hpre q (List.mem_cons_of_mem p hq))

lemma dispersionFormula_out (idx : ℤ) (cs : List (ℤ × ℕ))
    (hout : idx < 1 ∨ 9 < idx) :
    dispersionFormula idx cs =
      .error (.rangeError (idx : ℝ) [1, 9] "RIID dispersion formula out of range") := by
  have h1 : idx ≠ 1 := by omega
  have h2 : idx ≠ 2 := by omega
  have h3 : idx ≠ 3 := by omega
  have h4 : idx ≠ 4 := by omega
  have h5 : idx ≠ 5 := by omega
  have h6 : idx ≠ 6 := by omega
  have h7 : idx ≠ 7 := by omega
  have h8 : idx ≠ 8 := by omega
  have h9 : idx ≠ 9 := by omega
  unfold dispersionFormula
  rw [if_neg h1, if_neg h2, if_neg h3, if_neg h4, if_neg h5, if_neg h6,
      if_neg h7, if_neg h8, if_neg h9]

/-- C6: for EVERY record whose matching data entry (the first formula-tagged
entry, after any entries matching neither marker) carries a formula tag with
an integer index outside `[1, 9]`, construction fails with `RangeError`
whose offending value is that index and whose valid bound is exactly
`(1, 9)`.  The range and coefficient fields are assumed to parse (the code
parses them before dispatching, so a malformed field would raise ValueError
first); the first conjunct states the dispatch failure itself, the second
its propagation out of the whole constructor. -/
theorem c6_formula_index_out_of_range (db : String) (pre : List Datum)
    (d : Datum) (rest : List Datum) (refs coms : Option String) (idx : ℤ)
    (r : List ℝ) (cs : List (ℤ × ℕ))
    (hpre : ∀ p ∈ pre, pyStartsWith p.type_ "formula" = false ∧
      pyStartsWith p.type_ "tabulated n" = false)
    (hd : pyStartsWith d.type_ "formula" = true)
    (hrange : parseRange d.range_ = .ok r)
    (hcoeff : floatListE (pySplit d.coefficients) = .ok cs)
    (hidx : intE ((pySplit d.type_).getD 1 "") = .ok idx)
    (hout : idx < 1 ∨ 9 < idx) :
    dispersionFormula idx cs =
      .error (.rangeError (idx : ℝ) [1, 9] "RIID dispersion formula out of range") ∧
    riidInit db { data := some (pre ++ d :: rest), references := refs, comments := coms } =
      .error (.rangeError (idx : ℝ) [1, 9] "RIID dispersion formula out of range") := by
  have hdisp := dispersionFormula_out idx cs hout
  have hscan : scanData (pre ++ d :: rest) =
      .error (.rangeError (idx : ℝ) [1, 9] "RIID dispersion formula out of range") := by
    rw [scanData_skip pre _ hpre]
    conv_lhs => rw [scanData]
    rw [if_pos hd]
    simp only [hrange, hcoeff, hidx, hdisp]
  refine ⟨hdisp, ?_⟩
  simp only [riidInit, hscan]

/-- The formula-12 entry used by the C6 witness. -/
def c6datum : Datum :=
  { type_ := "formula 12", range_ := "1 2", coefficients := "1 1 1" }

/-- C6 witness: a record with one skipped (`"tabulated k"`) entry followed
by a `"formula 12"` entry raises `RangeError(12, (1, 9), ..)`. -/
theorem c6_witness :
    dispersionFormula 12 [(1, 0), (1, 0), (1, 0)] =
      .error (.rangeError 12 [1, 9] "RIID dispersion formula out of range") ∧
    riidInit "c6"
      { data := some ([{ type_ := "tabulated k", range_ := "", coefficients := "" }] ++
          c6datum :: []),
        references := none, comments := none } =
      .error (.rangeError 12 [1, 9] "RIID dispersion formula out of range") := by
  have h := c6_formula_index_out_of_range "c6"
    [{ type_ := "tabulated k", range_ := "", coefficients := "" }] c6datum []
    none none 12 [frequency (decVal (2, 0)), frequency (decVal (1, 0))]
    [(1, 0), (1, 0), (1, 0)]
    (by
      intro p hp
      rw [List.mem_singleton] at hp
      subst hp
      exact ⟨rfl, rfl⟩)
    rfl rfl rfl rfl (by omega)
  simpa using h

lemma frequency_lt_frequency (a b : ℝ) (ha : 0 < a) (hab : a < b) :
    frequency b < frequency a := by
  unfold frequency converter
  exact div_lt_div_of_pos_left two_pi_c_pos ha hab

lemma setRange_swap (a b : ℝ) (hab : b < a) : setRange [a, b] = .ok [b, a] := by
  unfold setRange
  rw [if_neg (by simp), if_pos (by simpa using hab)]
  simp

lemma materialInitR_swap (f : ℝ → Except UltrafastError ℝ) (a b : ℝ)
    (nm rf cm : Option String) (hab : b < a) :
    materialInitR (some f) (some [a, b]) nm rf cm =
      .ok { rawN := f, range_ := [b, a], name := nm,
            references := rf, comments := cm } := by
  simp only [materialInitR, checkCallable, setRange_swap a b hab]

lemma wavelength_frequency (x : ℝ) (hx : x ≠ 0) :
    wavelength (frequency x) = x := by
  have hc : c * 2 * Real.pi ≠ 0 := ne_of_gt two_pi_c_pos
  unfold wavelength frequency converter
  field_simp

lemma assertFrequencyR_in (m : RIIDMaterial) (lo hi omega : ℝ)
    (hr : m.range_ = [lo, hi]) (h1 : lo ≤ omega) (h2 : omega ≤ hi) :
    m.assertFrequency omega = .ok () := by
  unfold RIIDMaterial.assertFrequency
  rw [hr]
  simp only [List.getD_cons_zero, List.getD_cons_succ]
  rw [if_neg (not_not_intro ⟨h1, h2⟩)]

lemma pyDiv_ok (a b : ℝ) (hb : b ≠ 0) : pyDiv a b = .ok (a / b) := by
  unfold pyDiv
  rw [if_neg hb]

lemma pyDiv_zero (a b : ℝ) (hb : b = 0) :
    pyDiv a b = .error (.zeroDivisionError "float division by zero") := by
  unfold pyDiv
  rw [if_pos hb]

lemma mathSqrt_ok (x : ℝ) (hx : 0 ≤ x) : mathSqrt x = .ok (Real.sqrt x) := by
  unfold mathSqrt
  rw [if_neg (not_lt.2 hx)]

lemma mathSqrt_neg (x : ℝ) (hx : x < 0) :
    mathSqrt x = .error (.valueError "math domain error") := by
  unfold mathSqrt
  rw [if_pos hx]

/-- The record of claim C5: one data entry of type `"formula 1"` with range
string `"10 1"` (wavelength, µm) and coefficient string `"0 1 1.5"`. -/
def c5entry : Entry :=
  { data := some [{ type_ := "formula 1", range_ := "10 1", coefficients := "0 1 1.5" }]
    references := none
    comments := none }

/-- The dispersion function the scan builds for `c5entry`: the Sellmeier
formula over the parsed coefficients `[0, 1, 1.5]`, composed with the
frequency-to-wavelength converter. -/
noncomputable def c5fun : ℝ → Except UltrafastError ℝ :=
  fun omega => formula1 [(0, 0), (1, 0), (15, 1)] (wavelength omega)

lemma c5_step1 : riidInit "c5db" c5entry =
    materialInitR (some c5fun)
      (some [frequency (decVal (1, 0)), frequency (decVal (10, 0))])
      (some "c5db") none none := rfl

lemma c5_construct : riidInit "c5db" c5entry =
    .ok { rawN := c5fun, range_ := [frequency 10, frequency 1],
          name := some "c5db", references := none, comments := none } := by
  rw [c5_step1]
  have h1 : decVal ((1 : ℤ), (0 : ℕ)) = 1 := by norm_num [decVal]
  have h10 : decVal ((10 : ℤ), (0 : ℕ)) = 10 := by norm_num [decVal]
  rw [h1, h10]
  exact materialInitR_swap c5fun (frequency 1) (frequency 10) (some "c5db") none none
    (frequency_lt_frequency 1 10 one_pos (by norm_num))

lemma formula1_c5_pyDiv (l : ℝ) :
    formula1 [(0, 0), (1, 0), (15, 1)] l =
      match pyDiv (1 * l ^ 2) (l ^ 2 - (1.5 : ℝ) ^ 2) with
      | .error e => .error e
      | .ok t => mathSqrt (1 + 0 + t) := by
  unfold formula1
  rw [show pairSlices 1 [((0 : ℤ), (0 : ℕ)), (1, 0), (15, 1)] = [[(1, 0), (15, 1)]] from
    by decide]
  simp only [List.foldlM_cons, List.foldlM_nil]
  have h0 : co [((1 : ℤ), (0 : ℕ)), (15, 1)] 0 = 1 := by
    norm_num [co, decVal, List.getD_cons_zero, List.getD_cons_succ]
  have h1 : co [((1 : ℤ), (0 : ℕ)), (15, 1)] 1 = 1.5 := by
    norm_num [co, decVal, List.getD_cons_zero, List.getD_cons_succ]
  have h2 : co [((0 : ℤ), (0 : ℕ)), (1, 0), (15, 1)] 0 = 0 := by
    norm_num [co, decVal, List.getD_cons_zero, List.getD_cons_succ]
  simp only [h0, h1, h2]
  cases pyDiv (1 * l ^ 2) (l ^ 2 - (1.5 : ℝ) ^ 2) <;> rfl

lemma formula1_c5_ok (l : ℝ) (hden : l ^ 2 - (1.5 : ℝ) ^ 2 ≠ 0)
    (hpos : 0 ≤ 1 + 0 + 1 * l ^ 2 / (l ^ 2 - (1.5 : ℝ) ^ 2)) :
    formula1 [(0, 0), (1, 0), (15, 1)] l =
      .ok (Real.sqrt (1 + 0 + 1 * l ^ 2 / (l ^ 2 - (1.5 : ℝ) ^ 2))) := by
  rw [formula1_c5_pyDiv, pyDiv_ok _ _ hden]
  show mathSqrt (1 + 0 + 1 * l ^ 2 / (l ^ 2 - (1.5 : ℝ) ^ 2)) = _
  exact mathSqrt_ok _ hpos

lemma formula1_c5_zerodiv (l : ℝ) (hden : l ^ 2 - (1.5 : ℝ) ^ 2 = 0) :
    formula1 [(0, 0), (1, 0), (15, 1)] l =
      .error (.zeroDivisionError "float division by zero") := by
  rw [formula1_c5_pyDiv, pyDiv_zero _ _ hden]

lemma formula1_c5_neg (l : ℝ) (hden : l ^ 2 - (1.5 : ℝ) ^ 2 ≠ 0)
    (hneg : 1 + 0 + 1 * l ^ 2 / (l ^ 2 - (1.5 : ℝ) ^ 2) < 0) :
    formula1 [(0, 0), (1, 0), (15, 1)] l =
      .error (.valueError "math domain error") := by
  rw [formula1_c5_pyDiv, pyDiv_ok _ _ hden]
  show mathSqrt (1 + 0 + 1 * l ^ 2 / (l ^ 2 - (1.5 : ℝ) ^ 2)) = _
  exact mathSqrt_neg _ hneg

/-- C5 counterexample: the claim asserts the constructed material's `n`
returns the Sellmeier value for EVERY in-range omega; but at
`omega = frequency 1.2` — in range, since the stored range is
`[frequency 10, frequency 1]` and `wavelength(omega) = 1.2 ∈ [1, 10]` — the
radicand `1 + 1.2² / (1.2² − 1.5²)` is negative, so Python's `math.sqrt`
raises `ValueError` (math domain error) instead of returning a value. -/
theorem c5_counterexample :
    (riidInit "c5db" c5entry).map RIIDMaterial.range_ = .ok [frequency 10, frequency 1] ∧
    frequency 10 ≤ frequency (1.2 : ℝ) ∧ frequency (1.2 : ℝ) ≤ frequency 1 ∧
    (riidInit "c5db" c5entry).bind (fun m => m.n (frequency (1.2 : ℝ))) =
      .error (.valueError "math domain error") := by
  have h1 : frequency 10 ≤ frequency (1.2 : ℝ) :=
    le_of_lt (frequency_lt_frequency (1.2 : ℝ) 10 (by norm_num) (by norm_num))
  have h2 : frequency (1.2 : ℝ) ≤ frequency 1 :=
    le_of_lt (frequency_lt_frequency 1 (1.2 : ℝ) one_pos (by norm_num))
  refine ⟨by rw [c5_construct]; rfl, h1, h2, ?_⟩
  rw [c5_construct]
  show RIIDMaterial.n
    { rawN := c5fun, range_ := [frequency 10, frequency 1],
      name := some "c5db", references := none, comments := none } (frequency (1.2 : ℝ)) = _
  unfold RIIDMaterial.n
  rw [assertFrequencyR_in _ (frequency 10) (frequency 1) _ rfl h1 h2]
  show formula1 [(0, 0), (1, 0), (15, 1)] (wavelength (frequency (1.2 : ℝ))) = _
  rw [wavelength_frequency (1.2 : ℝ) (by norm_num)]
  exact formula1_c5_neg (1.2 : ℝ) (by norm_num) (by norm_num)

/-- C5 amended: constructing from the `"formula 1"` / `"10 1"` / `"0 1 1.5"`
record stores the range `(frequency 10, frequency 1)` in ascending order
(the wavelength bounds are reversed before conversion and then swapped
low-first by the range setter), and for every in-range omega the dispersion
function evaluates the Sellmeier expression
`n² = 1 + c0 + c1·λ²/(λ² − c2²)` at `λ = wavelength(omega)` with
`c0 = 0, c1 = 1, c2 = 1.5`, with the evaluation's own failure modes: it
returns `sqrt(n²)` when the denominator is nonzero and the radicand
nonnegative, raises `ZeroDivisionError` when `λ² = 1.5²`, and raises
`ValueError` (math domain error) when the radicand is negative (which
happens on a subinterval of the valid range, as the counterexample
shows). -/
theorem c5_formula1_record :
    (riidInit "c5db" c5entry).map RIIDMaterial.range_ = .ok [frequency 10, frequency 1] ∧
    ∀ omega : ℝ, frequency 10 ≤ omega → omega ≤ frequency 1 →
      ((wavelength omega ^ 2 - (1.5 : ℝ) ^ 2 ≠ 0 →
          0 ≤ 1 + 0 + 1 * wavelength omega ^ 2 / (wavelength omega ^ 2 - (1.5 : ℝ) ^ 2) →
          (riidInit "c5db" c5entry).bind (fun m => m.n omega) =
            .ok (Real.sqrt (1 + 0 + 1 * wavelength omega ^ 2 /
              (wavelength omega ^ 2 - (1.5 : ℝ) ^ 2)))) ∧
        (wavelength omega ^ 2 - (1.5 : ℝ) ^ 2 = 0 →
          (riidInit "c5db" c5entry).bind (fun m => m.n omega) =
            .error (.zeroDivisionError "float division by zero")) ∧
        (wavelength omega ^ 2 - (1.5 : ℝ) ^ 2 ≠ 0 →
          1 + 0 + 1 * wavelength omega ^ 2 / (wavelength omega ^ 2 - (1.5 : ℝ) ^ 2) < 0 →
          (riidInit "c5db" c5entry).bind (fun m => m.n omega) =
            .error (.valueError "math domain error"))) := by
  constructor
  · rw [c5_construct]
    rfl
  · intro omega hlo hhi
    have hn : ∀ r : Except UltrafastError ℝ,
        formula1 [(0, 0), (1, 0), (15, 1)] (wavelength omega) = r →
        (riidInit "c5db" c5entry).bind (fun m => m.n omega) = r := by
      intro r hrr
      rw [c5_construct]
      show RIIDMaterial.n
        { rawN := c5fun, range_ := [frequency 10, frequency 1],
          name := some "c5db", references := none, comments := none } omega = r
      unfold RIIDMaterial.n
      rw [assertFrequencyR_in _ (frequency 10) (frequency 1) omega rfl hlo hhi]
      exact hrr
    exact ⟨fun hden hpos => hn _ (formula1_c5_ok (wavelength omega) hden hpos),
      fun hden => hn _ (formula1_c5_zerodiv (wavelength omega) hden),
      fun hden hneg => hn _ (formula1_c5_neg (wavelength omega) hden hneg)⟩

lemma freq10_le_freq1 : frequency 10 ≤ frequency 1 :=
  le_of_lt (frequency_lt_frequency 1 10 one_pos (by norm_num))

/-- C5 witness: the range projection, and the successful Sellmeier value at
the upper endpoint `omega = frequency 1` (`λ = 1`, radicand `0.2 ≥ 0`). -/
theorem c5_witness :
    (riidInit "c5db" c5entry).map RIIDMaterial.range_ = .ok [frequency 10, frequency 1] ∧
    (riidInit "c5db" c5entry).bind (fun m => m.n (frequency 1)) =
      .ok (Real.sqrt (1 + 0 + 1 * wavelength (frequency 1) ^ 2 /
        (wavelength (frequency 1) ^ 2 - (1.5 : ℝ) ^ 2))) := by
  have hw : wavelength (frequency 1) = 1 := wavelength_frequency 1 (by norm_num)
  refine ⟨c5_formula1_record.1, ?_⟩
  exact (c5_formula1_record.2 (frequency 1) freq10_le_freq1 le_rfl).1
    (by rw [hw]; norm_num) (by rw [hw]; norm_num)

end Ultrafast
